import Mathlib

/-!
A verification development for `mysqld_exporter.go`.

This file embeds, in Lean 4, the scrape-and-classify pipeline of the
single-file MySQL exporter (`mysqld_exporter.go`) and proves properties of
that embedding.

Modelling conventions:
* `float64` values are modelled as exact rationals (`ℚ`); the embedding of
  `strconv.ParseFloat` works over the decimal syntax and ignores IEEE-754
  rounding, range overflow (`ErrRange`), hexadecimal floats, underscore
  digit separators and the special `Inf`/`NaN` spellings, none of which are
  exercised by the status values under study.
* `sql.RawBytes` cells and column names are modelled as `String`.
* the Prometheus metric channel is modelled by an accumulating
  `List Metric`; a `prometheus.Desc` is reduced to its fully-qualified
  name (`BuildFQName namespace subsystem name`) together with its label
  names, since nothing in the program branches on the help text.
* row iteration with possible `Scan` failures is modelled by a
  `List (Option row)`: a `none` entry stands for a row whose `Scan` call
  returns a non-nil error; query execution / metadata errors are modelled
  by `Except Unit`.
-/

namespace MysqldExporter

/-- The `prometheus.ValueType` of an emitted const metric. -/
inductive VType where
  | counter
  | gauge
  | untyped
deriving DecidableEq, Repr

/-- One metric pushed on the collector channel: fully-qualified name,
label (name, value) pairs in order, value type, and the `float64` value
(as an exact rational). -/
structure Metric where
  name : String
  labels : List (String × String)
  vtype : VType
  value : ℚ
deriving DecidableEq, Repr

/-! ## The value parser (`parseStatus`, lines 199-212)

`parseStatus` consults `logRE = regexp.MustCompile(".+\\.(\\d+)$")` via
`logRE.Find(data)`.  `Find` returns the text of the *leftmost* match of the
whole expression (not the capture group).  Because the pattern is anchored
at the end by `$`, a match starting at byte `i` always extends to the end
of the input, so `Find` returns the suffix starting at the leftmost
feasible position. -/

/-- Whether the whole character list matches `.+\.(\d+)$`:
a non-empty run of non-newline characters (`.` does not match `\n` in Go
regexps), a literal dot, then a non-empty run of digits reaching the end. -/
def logREMatchesAll (t : List Char) : Bool :=
  let r := t.reverse
  let d := r.takeWhile Char.isDigit
  !d.isEmpty &&
    match r.drop d.length with
    | '.' :: rest => !rest.isEmpty && !rest.contains '\n'
    | _ => false

/-- Model of `logRE.Find`: the leftmost suffix of the input matched by
`.+\.(\d+)$`, if any (`$` forces every match to end at the end of input). -/
def logREFind : List Char → Option (List Char)
  | [] => none
  | c :: rest =>
    if logREMatchesAll (c :: rest) then some (c :: rest)
    else logREFind rest

/-- Accumulate a leading run of decimal digits: returns the value read so
far, the number of digits consumed, and the remaining characters. -/
def readDigits (acc : Nat) (n : Nat) : List Char → Nat × Nat × List Char
  | [] => (acc, n, [])
  | c :: rest =>
    if c.isDigit then readDigits (10 * acc + (c.toNat - 48)) (n + 1) rest
    else (acc, n, c :: rest)

/-- Model of `strconv.ParseFloat(s, 64)` on the plain decimal syntax
`[+-]? digits [. digits]? [(e|E) [+-]? digits]?` (at least one mantissa
digit required; the whole input must be consumed).  Returns `none` where
`ParseFloat` returns a non-nil error.  See the module comment for the
deliberately unmodelled corners (`Inf`/`NaN`, hex floats, underscores,
range overflow). -/
def goParseFloat (s : List Char) : Option ℚ :=
  let signRest : ℚ × List Char :=
    match s with
    | '+' :: r => (1, r)
    | '-' :: r => (-1, r)
    | r => (1, r)
  let sgn := signRest.1
  let afterInt := readDigits 0 0 signRest.2
  let intPart := afterInt.1
  let intDigits := afterInt.2.1
  let afterFrac : Nat × Nat × List Char :=
    match afterInt.2.2 with
    | '.' :: r => readDigits 0 0 r
    | r => (0, 0, r)
  let fracPart := afterFrac.1
  let fracDigits := afterFrac.2.1
  if intDigits + fracDigits = 0 then none
  else
    let mant : ℚ := sgn * ((intPart : ℚ) + (fracPart : ℚ) / ((10 : ℚ) ^ fracDigits))
    match afterFrac.2.2 with
    | [] => some mant
    | e :: r =>
      if e = 'e' ∨ e = 'E' then
        let expSignRest : Bool × List Char :=
          match r with
          | '+' :: rr => (false, rr)
          | '-' :: rr => (true, rr)
          | rr => (false, rr)
        let afterExp := readDigits 0 0 expSignRest.2
        if afterExp.2.1 = 0 ∨ afterExp.2.2 ≠ [] then none
        else if expSignRest.1 then some (mant / (10 : ℚ) ^ afterExp.1)
        else some (mant * (10 : ℚ) ^ afterExp.1)
      else none

/-- The fall-through branches of `parseStatus` (lines 206-211): try the
rotated-log-file pattern via `logRE.Find`, feeding whatever `Find` returned
to `strconv.ParseFloat`; otherwise parse the whole cell.  A failed
`ParseFloat` yields value `0` and `ok = false`. -/
def parseStatusNumeric (data : String) : ℚ × Bool :=
  match logREFind data.data with
  | some logNum =>
    match goParseFloat logNum with
    | some v => (v, true)
    | none => (0, false)
  | none =>
    match goParseFloat data.data with
    | some v => (v, true)
    | none => (0, false)

/-- The full `parseStatus` (lines 199-212): `"Yes"`/`"ON"` ↦ `(1, true)`,
`"No"`/`"OFF"` ↦ `(0, true)` (exact byte comparisons), otherwise the
numeric fall-through branches. -/
def parseStatus (data : String) : ℚ × Bool :=
  if data = "Yes" ∨ data = "ON" then (1, true)
  else if data = "No" ∨ data = "OFF" then (0, true)
  else parseStatusNumeric data

/-- Model of `strings.ToLower` as used on status-variable and column names
(all ASCII in MySQL): lower-case each character.  Defined over the
character list so that it evaluates structurally. -/
def toLowerStr (s : String) : String :=
  String.mk (s.data.map Char.toLower)

/-! ## Global-status classification (lines 241-276)

`globalStatusRE = ^(com|connection_errors|innodb_rows|performance_schema)_(.*)$`
is applied to the raw key with `FindStringSubmatch`.  The four alternatives
are mutually exclusive as prefixes, and `.` does not match `\n`, so the
expression matches exactly when the key is one family name, `_`, and a
newline-free remainder. -/

/-- One alternative of `globalStatusRE`: if `fam ++ "_"` is a prefix of the
key and the remainder contains no newline (`(.*)` cannot cross `\n`),
return the remainder (capture group 2). -/
def matchFamily (fam : List Char) (key : List Char) : Option (List Char) :=
  if (fam ++ ['_']).isPrefixOf key then
    let rest := key.drop (fam.length + 1)
    if rest.contains '\n' then none else some rest
  else none

/-- Model of `globalStatusRE.FindStringSubmatch key`: the matched family
(group 1) and remainder (group 2), or `none` when the regexp does not
match.  Alternatives are tried in the regexp's order. -/
def globalStatusMatch (key : String) : Option (String × String) :=
  match matchFamily "com".data key.data with
  | some rest => some ("com", String.mk rest)
  | none =>
    match matchFamily "connection_errors".data key.data with
    | some rest => some ("connection_errors", String.mk rest)
    | none =>
      match matchFamily "innodb_rows".data key.data with
      | some rest => some ("innodb_rows", String.mk rest)
      | none =>
        match matchFamily "performance_schema".data key.data with
        | some rest => some ("performance_schema", String.mk rest)
        | none => none

/-- Processing of one `SHOW GLOBAL STATUS` row (lines 247-275): skip the
cell when `parseStatus` fails; emit the generic untyped metric when the
regexp does not match; otherwise route on the family (the Go `switch` has
no default, so an unlisted family would emit nothing). -/
def scrapeGlobalRow (key : String) (val : String) : List Metric :=
  let parsed := parseStatus val
  if parsed.2 then
    match globalStatusMatch key with
    | none =>
      [{ name := "mysql_global_status_" ++ toLowerStr key, labels := [],
         vtype := .untyped, value := parsed.1 }]
    | some (fam, rest) =>
      if fam = "com" then
        [{ name := "mysql_global_status_commands_total",
           labels := [("command", rest)], vtype := .counter, value := parsed.1 }]
      else if fam = "connection_errors" then
        [{ name := "mysql_global_status_connection_errors_total",
           labels := [("error", rest)], vtype := .counter, value := parsed.1 }]
      else if fam = "innodb_rows" then
        [{ name := "mysql_global_status_innodb_row_ops_total",
           labels := [("operation", rest)], vtype := .counter, value := parsed.1 }]
      else if fam = "performance_schema" then
        [{ name := "mysql_global_status_performance_schema_lost_total",
           labels := [("instrumentation", rest)], vtype := .counter, value := parsed.1 }]
      else []
  else []

/-! ## Slave-status rows (lines 286-320) -/

/-- Processing of the single `SHOW SLAVE STATUS` row (lines 311-319): for
each column (names discovered from result metadata, zipped with the
scanned cells), emit an untyped label-less metric named from the
lower-cased column name when the cell parses, and skip the cell
otherwise. -/
def scrapeSlaveRow (cols : List String) (vals : List String) : List Metric :=
  (cols.zip vals).filterMap fun p =>
    let parsed := parseStatus p.2
    if parsed.2 then
      some { name := "mysql_slave_status_" ++ toLowerStr p.1, labels := [],
             vtype := .untyped, value := parsed.1 }
    else none

/-! ## Performance-schema table-waits rows (lines 342-373) -/

/-- One scanned row of the fixed
`performance_schema.table_io_waits_summary_by_table` query: the schema,
the table name, and the six `int64` operation counters, in the order of
the SELECT list. -/
structure TableWaitsRow where
  objectSchema : String
  objectName : String
  countRead : Int
  countWrite : Int
  countFetch : Int
  countInsert : Int
  countUpdate : Int
  countDelete : Int
deriving DecidableEq, Repr

/-- Emission for one table-waits row (lines 349-372): six Counter metrics
on the single descriptor `mysql_perf_schema_table_io_waits_total` with
labels `(schema, name, operation)`, one per operation, each carrying
`float64(count)` of the corresponding scanned counter. -/
def scrapeTableWaitsRow (r : TableWaitsRow) : List Metric :=
  [{ name := "mysql_perf_schema_table_io_waits_total",
     labels := [("schema", r.objectSchema), ("name", r.objectName), ("operation", "read")],
     vtype := .counter, value := (r.countRead : ℚ) },
   { name := "mysql_perf_schema_table_io_waits_total",
     labels := [("schema", r.objectSchema), ("name", r.objectName), ("operation", "write")],
     vtype := .counter, value := (r.countWrite : ℚ) },
   { name := "mysql_perf_schema_table_io_waits_total",
     labels := [("schema", r.objectSchema), ("name", r.objectName), ("operation", "fetch")],
     vtype := .counter, value := (r.countFetch : ℚ) },
   { name := "mysql_perf_schema_table_io_waits_total",
     labels := [("schema", r.objectSchema), ("name", r.objectName), ("operation", "insert")],
     vtype := .counter, value := (r.countInsert : ℚ) },
   { name := "mysql_perf_schema_table_io_waits_total",
     labels := [("schema", r.objectSchema), ("name", r.objectName), ("operation", "update")],
     vtype := .counter, value := (r.countUpdate : ℚ) },
   { name := "mysql_perf_schema_table_io_waits_total",
     labels := [("schema", r.objectSchema), ("name", r.objectName), ("operation", "delete")],
     vtype := .counter, value := (r.countDelete : ℚ) }]

/-! ## User-statistics rows (lines 376-421) -/

/-- The static `informationSchemaUserStatisticsTypes` map (lines 89-114)
reduced to what the program consumes from it: column name ↦ (value type,
fully-qualified metric name). -/
def informationSchemaUserStatisticsTypes : List (String × VType × String) :=
  [("TOTAL_CONNECTIONS", .counter, "mysql_info_schema_user_statistics_total_connections"),
   ("CONCURRENT_CONNECTIONS", .gauge, "mysql_info_schema_user_statistics_concurrent_connections"),
   ("CONNECTED_TIME", .counter, "mysql_info_schema_user_statistics_connected_time"),
   ("BUSY_TIME", .counter, "mysql_info_schema_user_statistics_busy_time"),
   ("CPU_TIME", .counter, "mysql_info_schema_user_statistics_cpu_time"),
   ("BYTES_RECEIVED", .counter, "mysql_info_schema_user_statistics_bytes_received"),
   ("BYTES_SENT", .counter, "mysql_info_schema_user_statistics_bytes_sent"),
   ("BINLOG_BYTES_WRITTEN", .counter, "mysql_info_schema_user_statistics_binlog_bytes_written"),
   ("ROWS_FETCHED", .counter, "mysql_info_schema_user_statistics_rows_fetched"),
   ("ROWS_UPDATED", .counter, "mysql_info_schema_user_statistics_rows_updated"),
   ("TABLE_ROWS_READ", .counter, "mysql_info_schema_user_statistics_table_rows_read"),
   ("SELECT_COMMANDS", .counter, "mysql_info_schema_user_statistics_select_commands"),
   ("UPDATE_COMMANDS", .counter, "mysql_info_schema_user_statistics_update_commands"),
   ("OTHER_COMMANDS", .counter, "mysql_info_schema_user_statistics_other_commands"),
   ("COMMIT_TRANSACTIONS", .counter, "mysql_info_schema_user_statistics_commit_transactions"),
   ("ROLLBACK_TRANSACTIONS", .counter, "mysql_info_schema_user_statistics_rollback_transactions"),
   ("DENIED_CONNECTIONS", .counter, "mysql_info_schema_user_statistics_denied_connections"),
   ("LOST_CONNECTIONS", .counter, "mysql_info_schema_user_statistics_lost_connections"),
   ("ACCESS_DENIED", .counter, "mysql_info_schema_user_statistics_access_denied"),
   ("EMPTY_QUERIES", .counter, "mysql_info_schema_user_statistics_empty_queries"),
   ("TOTAL_SSL_CONNECTIONS", .counter, "mysql_info_schema_user_statistics_total_ssl_connections")]

/-- Map lookup `informationSchemaUserStatisticsTypes[columnName]`. -/
def lookupUserStatType (columnName : String) : Option (VType × String) :=
  (informationSchemaUserStatisticsTypes.find? (fun e => e.1 == columnName)).map (·.2)

/-- Emission for one `information_schema.USER_STATISTICS` row
(lines 393-420).  `userStatScanArgs[0]` is bound to `user` and
`userStatScanArgs[i+1]` to `userStatData[i+1]`, so after `Scan` the slice
`userStatData` holds `0` at index 0 (never written) and the scanned value
of column `j` at each index `j ≥ 1`; `rowVals` are the scanned numeric
cells of columns `1, 2, …` in order.  The emission loop
(`for idx, columnName := range columnNames[1:]`) pairs the column at
position `idx+1` with `userStatData[idx]`. -/
def scrapeUserStatRow (columnNames : List String) (user : String)
    (rowVals : List ℚ) : List Metric :=
  let userStatData : List ℚ := 0 :: rowVals
  ((columnNames.drop 1).zip userStatData).map fun p =>
    match lookupUserStatType p.1 with
    | some (vt, mname) =>
      { name := mname, labels := [("user", user)], vtype := vt, value := p.2 }
    | none =>
      { name := "mysql_info_schema_user_statistics_" ++ toLowerStr p.1,
        labels := [("user", user)], vtype := .untyped, value := p.2 }

/-! ## The scrape state machine (`Exporter.scrape` / `Exporter.Collect`)

The database is abstracted as the outcomes of the four fixed queries; a
`none` row entry models a row whose `Scan` call fails, `Except.error ()`
models a failed query execution or failed metadata retrieval. -/

/-- The two process-wide feature toggles (lines 29-35). -/
structure Flags where
  perfTableIOWaits : Bool
  userStat : Bool
deriving DecidableEq, Repr

/-- Result of `SHOW SLAVE STATUS`: whether a row is present (zero or one
row in single-source replication), the `Columns()` metadata outcome, the
`Scan` outcome, and the scanned cells. -/
structure SlaveResult where
  hasRow : Bool
  columns : Except Unit (List String)
  scanOk : Bool
  vals : List String
deriving Repr

/-- Result of the user-statistics query: the `Columns()` metadata outcome
and the rows; each present row carries the user name (column 0) and the
scanned numeric cells of the remaining columns in order. -/
structure UserStatResult where
  columns : Except Unit (List String)
  rows : List (Option (String × List ℚ))
deriving Repr

/-- An abstract database: the outcome of opening the connection and of
each of the four fixed queries. -/
structure DB where
  connOk : Bool
  globalStatus : Except Unit (List (Option (String × String)))
  slaveStatus : Except Unit SlaveResult
  tableWaits : Except Unit (List (Option TableWaitsRow))
  userStats : Except Unit UserStatResult
deriving Repr

/-- The mutable self-observation state of the `Exporter` (lines 124-128):
the `duration` and `error` gauges and the `totalScrapes` counter. -/
structure ExporterState where
  duration : ℚ
  errorFlag : Bool
  totalScrapes : Nat
deriving DecidableEq, Repr

/-- How a poll ends: a normal return from `scrape`, or a runtime panic
(index out of range) that propagates past it. -/
inductive Outcome where
  | normal
  | indexOutOfRange
deriving DecidableEq, Repr

/-- Iterate the global-status rows (lines 241-276): metrics emitted before
the loop ends, and whether the loop completed without a `Scan` error. -/
def processGlobalRows : List (Option (String × String)) → List Metric × Bool
  | [] => ([], true)
  | none :: _ => ([], false)
  | some (key, val) :: rest =>
    let r := processGlobalRows rest
    (scrapeGlobalRow key val ++ r.1, r.2)

/-- Iterate the table-waits rows (lines 342-373): metrics emitted before
the loop ends, and whether the loop completed without a `Scan` error. -/
def processTableWaitsRows : List (Option TableWaitsRow) → List Metric × Bool
  | [] => ([], true)
  | none :: _ => ([], false)
  | some r :: rest =>
    let t := processTableWaitsRows rest
    (scrapeTableWaitsRow r ++ t.1, t.2)

/-- Iterate the user-statistics rows (lines 401-421): a `Scan` failure
sets the error flag and returns (metrics emitted for earlier rows are
kept). -/
def processUserStatRows (cols : List String) :
    List (Option (String × List ℚ)) → ExporterState → List Metric →
    ExporterState × List Metric × Outcome
  | [], st, acc => (st, acc, .normal)
  | none :: _, st, acc => ({ st with errorFlag := true }, acc, .normal)
  | some (user, vals) :: rest, st, acc =>
    processUserStatRows cols rest st (acc ++ scrapeUserStatRow cols user vals)

/-- The user-statistics state (lines 376-423).  With the toggle off it is
skipped.  A query or `Columns()` failure sets the error flag and returns.
With an empty column list, `userStatScanArgs[0] = &user` (line 396)
indexes a zero-length slice: the poll panics before reaching any
error-flag assignment. -/
def scrapeFromUserStat (fl : Flags) (db : DB) (st : ExporterState)
    (acc : List Metric) : ExporterState × List Metric × Outcome :=
  if fl.userStat then
    match db.userStats with
    | .error _ => ({ st with errorFlag := true }, acc, .normal)
    | .ok us =>
      match us.columns with
      | .error _ => ({ st with errorFlag := true }, acc, .normal)
      | .ok cols =>
        if cols.isEmpty then (st, acc, .indexOutOfRange)
        else processUserStatRows cols us.rows st acc
  else (st, acc, .normal)

/-- The table-waits state (lines 322-374).  With the toggle off it is
skipped.  A query failure sets the error flag and returns.  A row `Scan`
failure (lines 343-348) returns — keeping the metrics already emitted —
but, unlike every other scan-error handler in `scrape`, does **not** set
the error flag before returning. -/
def scrapeFromPerf (fl : Flags) (db : DB) (st : ExporterState)
    (acc : List Metric) : ExporterState × List Metric × Outcome :=
  if fl.perfTableIOWaits then
    match db.tableWaits with
    | .error _ => ({ st with errorFlag := true }, acc, .normal)
    | .ok rows =>
      let t := processTableWaitsRows rows
      if t.2 then scrapeFromUserStat fl db st (acc ++ t.1)
      else (st, acc ++ t.1, .normal)
  else scrapeFromUserStat fl db st acc

/-- The slave-status state (lines 278-320).  A query, metadata, or `Scan`
failure sets the error flag and returns.  Zero rows: nothing is emitted
and the poll proceeds.  One row: the row's parseable cells are emitted and
the poll proceeds. -/
def scrapeFromSlave (fl : Flags) (db : DB) (st : ExporterState)
    (acc : List Metric) : ExporterState × List Metric × Outcome :=
  match db.slaveStatus with
  | .error _ => ({ st with errorFlag := true }, acc, .normal)
  | .ok sr =>
    if sr.hasRow then
      match sr.columns with
      | .error _ => ({ st with errorFlag := true }, acc, .normal)
      | .ok cols =>
        if sr.scanOk then scrapeFromPerf fl db st (acc ++ scrapeSlaveRow cols sr.vals)
        else ({ st with errorFlag := true }, acc, .normal)
    else scrapeFromPerf fl db st acc

/-- The body of `scrape` after the deferred duration-setter, the error
reset and the scrape-counter increment (lines 222-423): connection open,
then the four query states in order. -/
def scrapeBody (fl : Flags) (db : DB) (st : ExporterState) :
    ExporterState × List Metric × Outcome :=
  if db.connOk then
    match db.globalStatus with
    | .error _ => ({ st with errorFlag := true }, [], .normal)
    | .ok rows =>
      let g := processGlobalRows rows
      if g.2 then scrapeFromSlave fl db st g.1
      else ({ st with errorFlag := true }, g.1, .normal)
  else ({ st with errorFlag := true }, [], .normal)

/-- The poll entry point `Exporter.scrape` (lines 214-424): reset the error flag, increment the
scrape counter, run the body, and — via the deferred closure of lines
215-217, which runs on every exit path including a panic — record the
elapsed wall-clock time `elapsed` in the duration gauge. -/
def scrape (fl : Flags) (db : DB) (elapsed : ℚ) (st : ExporterState) :
    ExporterState × List Metric × Outcome :=
  let r := scrapeBody fl db { st with errorFlag := false, totalScrapes := st.totalScrapes + 1 }
  ({ r.1 with duration := elapsed }, r.2.1, r.2.2)

/-- The three self-observation metrics sent by `Exporter.Collect`
(lines 187-189), in channel order: duration gauge, total-scrapes counter,
error gauge. -/
def selfMetrics (st : ExporterState) : List Metric :=
  [{ name := "mysql_exporter_last_scrape_duration_seconds", labels := [],
     vtype := .gauge, value := st.duration },
   { name := "mysql_exporter_scrapes_total", labels := [],
     vtype := .counter, value := (st.totalScrapes : ℚ) },
   { name := "mysql_exporter_last_scrape_error", labels := [],
     vtype := .gauge, value := if st.errorFlag then 1 else 0 }]

/-- The collector hook `Exporter.Collect` (lines 184-190): run `scrape`, then send the three
self-observation metrics.  A panic inside `scrape` propagates before the
sends (the metrics already pushed on the channel stay pushed). -/
def collect (fl : Flags) (db : DB) (elapsed : ℚ) (st : ExporterState) :
    ExporterState × List Metric × Outcome :=
  let r := scrape fl db elapsed st
  match r.2.2 with
  | .normal => (r.1, r.2.1 ++ selfMetrics r.1, .normal)
  | .indexOutOfRange => r

/-! ## Concrete database fixtures used by the closed theorems below -/

/-- A database whose table-waits query returns one row that fails to
`Scan`, while the (enabled) user-statistics query would still have data to
emit. -/
def dbPerfScanFailure : DB :=
  { connOk := true
    globalStatus := .ok []
    slaveStatus := .ok { hasRow := false, columns := .ok [], scanOk := true, vals := [] }
    tableWaits := .ok [none]
    userStats := .ok { columns := .ok ["USER", "TOTAL_CONNECTIONS"], rows := [some ("bob", [3])] } }

/-- A database that emits one global-status metric and one full
table-waits row, then hits a table-waits `Scan` failure with the
user-statistics state still pending. -/
def dbPartialThenScanFailure : DB :=
  { connOk := true
    globalStatus := .ok [some ("Slave_running", "ON")]
    slaveStatus := .ok { hasRow := false, columns := .ok [], scanOk := true, vals := [] }
    tableWaits := .ok
      [some { objectSchema := "db", objectName := "t", countRead := 1, countWrite := 2,
              countFetch := 3, countInsert := 4, countUpdate := 5, countDelete := 6 },
       none]
    userStats := .ok { columns := .ok ["USER", "TOTAL_CONNECTIONS"], rows := [some ("bob", [3])] } }

/-- A database whose `SHOW SLAVE STATUS` query fails to execute after a
successful global-status query. -/
def dbSlaveQueryFailure : DB :=
  { connOk := true
    globalStatus := .ok [some ("Com_delete", "ON"), some ("wait_timeout", "garbage")]
    slaveStatus := .error ()
    tableWaits := .ok []
    userStats := .ok { columns := .ok ["USER"], rows := [] } }

/-- A database with an idle (non-slave) server: the slave-status query
returns zero rows. -/
def dbNoSlaveRow : DB :=
  { connOk := true
    globalStatus := .ok []
    slaveStatus := .ok { hasRow := false, columns := .ok [], scanOk := true, vals := [] }
    tableWaits := .ok []
    userStats := .ok { columns := .ok ["USER"], rows := [] } }

/-- A database whose user-statistics query yields a zero-column result
set. -/
def dbUserStatNoColumns : DB :=
  { connOk := true
    globalStatus := .ok []
    slaveStatus := .ok { hasRow := false, columns := .ok [], scanOk := true, vals := [] }
    tableWaits := .ok []
    userStats := .ok { columns := .ok [], rows := [] } }

/-! ## Helper lemmas -/

theorem data_append (s t : String) : (s ++ t).data = s.data ++ t.data := by
  cases s
  cases t
  rfl

theorem isPrefixOf_append_self (l t : List Char) : l.isPrefixOf (l ++ t) = true := by
  induction l with
  | nil => simp
  | cons a as ih => simp [List.isPrefixOf_cons₂, ih]

theorem mk_data (s : String) : String.mk s.data = s := by
  cases s
  rfl

theorem matchFamily_self (fam rest : List Char) (h : rest.contains '\n' = false) :
    matchFamily fam (fam ++ '_' :: rest) = some rest := by
  have h' : '\n' ∉ rest := by simpa using h
  have hpre : (fam ++ ['_']).isPrefixOf (fam ++ '_' :: rest) = true := by
    simp
  have hdrop : (fam ++ '_' :: rest).drop (fam.length + 1) = rest := by
    simp
  simp [matchFamily, hpre, hdrop, h']

theorem globalStatusMatch_com (rest : String) (h : rest.data.contains '\n' = false) :
    globalStatusMatch ("com_" ++ rest) = some ("com", rest) := by
  have hd : ("com_" ++ rest).data = "com".data ++ '_' :: rest.data := by
    rw [data_append]
    rfl
  unfold globalStatusMatch
  rw [hd, matchFamily_self _ _ h]

theorem globalStatusMatch_connection_errors (rest : String)
    (h : rest.data.contains '\n' = false) :
    globalStatusMatch ("connection_errors_" ++ rest) = some ("connection_errors", rest) := by
  have hd : ("connection_errors_" ++ rest).data = "connection_errors".data ++ '_' :: rest.data := by
    rw [data_append]
    rfl
  have hcom : matchFamily "com".data ("connection_errors_" ++ rest).data = none := by
    simp [matchFamily, hd, List.isPrefixOf]
  unfold globalStatusMatch
  rw [hcom, hd, matchFamily_self _ _ h]

theorem globalStatusMatch_innodb_rows (rest : String)
    (h : rest.data.contains '\n' = false) :
    globalStatusMatch ("innodb_rows_" ++ rest) = some ("innodb_rows", rest) := by
  have hd : ("innodb_rows_" ++ rest).data = "innodb_rows".data ++ '_' :: rest.data := by
    rw [data_append]
    rfl
  have hcom : matchFamily "com".data ("innodb_rows_" ++ rest).data = none := by
    simp [matchFamily, hd, List.isPrefixOf]
  have hconn : matchFamily "connection_errors".data ("innodb_rows_" ++ rest).data = none := by
    simp [matchFamily, hd, List.isPrefixOf]
  unfold globalStatusMatch
  rw [hcom, hconn, hd, matchFamily_self _ _ h]

theorem globalStatusMatch_performance_schema (rest : String)
    (h : rest.data.contains '\n' = false) :
    globalStatusMatch ("performance_schema_" ++ rest) = some ("performance_schema", rest) := by
  have hd : ("performance_schema_" ++ rest).data =
      "performance_schema".data ++ '_' :: rest.data := by
    rw [data_append]
    rfl
  have hcom : matchFamily "com".data ("performance_schema_" ++ rest).data = none := by
    simp [matchFamily, hd, List.isPrefixOf]
  have hconn : matchFamily "connection_errors".data ("performance_schema_" ++ rest).data = none := by
    simp [matchFamily, hd, List.isPrefixOf]
  have hinno : matchFamily "innodb_rows".data ("performance_schema_" ++ rest).data = none := by
    simp [matchFamily, hd, List.isPrefixOf]
  unfold globalStatusMatch
  rw [hcom, hconn, hinno, hd, matchFamily_self _ _ h]

theorem processUserStatRows_outcome (cols : List String)
    (rows : List (Option (String × List ℚ))) (st : ExporterState) (acc : List Metric) :
    (processUserStatRows cols rows st acc).2.2 = .normal := by
  induction rows generalizing st acc with
  | nil => rfl
  | cons r rest ih =>
    cases r with
    | none => rfl
    | some p =>
      cases p
      simp only [processUserStatRows]
      exact ih _ _

/-! ## Claim theorems -/

/-- C1: the spec claims that the user-statistics row
`(user="alice", TOTAL_CONNECTIONS=5, UNKNOWN_COL=9)` yields a Counter
`user_statistics_total_connections = 5` and an Untyped
`user_statistics_unknown_col = 9`.  The code pairs the column at position
`idx+1` with `userStatData[idx]` and never writes `userStatData[0]`, so it
actually emits `total_connections = 0` and `unknown_col = 5`. -/
theorem C1_user_stat_off_by_one :
    scrapeUserStatRow ["USER", "TOTAL_CONNECTIONS", "UNKNOWN_COL"] "alice" [5, 9] =
      [{ name := "mysql_info_schema_user_statistics_total_connections",
         labels := [("user", "alice")], vtype := .counter, value := 0 },
       { name := "mysql_info_schema_user_statistics_unknown_col",
         labels := [("user", "alice")], vtype := .untyped, value := 5 }] ∧
    scrapeUserStatRow ["USER", "TOTAL_CONNECTIONS", "UNKNOWN_COL"] "alice" [5, 9] ≠
      [{ name := "mysql_info_schema_user_statistics_total_connections",
         labels := [("user", "alice")], vtype := .counter, value := 5 },
       { name := "mysql_info_schema_user_statistics_unknown_col",
         labels := [("user", "alice")], vtype := .untyped, value := 9 }] := by
  constructor
  · decide
  · decide

/-- C2 counterexample: the claim says the raw key is compared in
lower-cased form, so `Com_select` (lower-cased `com_select`) should route
to the Counter `commands_total` with label `command="select"`.  The code
matches the raw key case-sensitively, so `Com_select` takes the untyped
fallback instead. -/
theorem C2_counterexample :
    scrapeGlobalRow "Com_select" "ON" =
      [{ name := "mysql_global_status_com_select", labels := [],
         vtype := .untyped, value := 1 }] ∧
    scrapeGlobalRow "Com_select" "ON" ≠
      [{ name := "mysql_global_status_commands_total", labels := [("command", "select")],
         vtype := .counter, value := 1 }] := by
  constructor
  · decide
  · decide

/-- C2 (amended): the raw key is compared case-sensitively (not
lower-cased) against the family regexp.  Every raw key of the form
`<family>_<remainder>` with a newline-free remainder is emitted as a
Counter with the family's fixed identity and the remainder as the single
label value, and every key the regexp does not match is emitted as a
fallback untyped metric named from the lower-cased raw key with no
labels (assuming the cell value parses). -/
theorem C2_amended (key val rest : String) (v : ℚ)
    (hparse : parseStatus val = (v, true))
    (hnl : rest.data.contains '\n' = false) :
    (key = "com_" ++ rest →
      scrapeGlobalRow key val =
        [{ name := "mysql_global_status_commands_total",
           labels := [("command", rest)], vtype := .counter, value := v }]) ∧
    (key = "connection_errors_" ++ rest →
      scrapeGlobalRow key val =
        [{ name := "mysql_global_status_connection_errors_total",
           labels := [("error", rest)], vtype := .counter, value := v }]) ∧
    (key = "innodb_rows_" ++ rest →
      scrapeGlobalRow key val =
        [{ name := "mysql_global_status_innodb_row_ops_total",
           labels := [("operation", rest)], vtype := .counter, value := v }]) ∧
    (key = "performance_schema_" ++ rest →
      scrapeGlobalRow key val =
        [{ name := "mysql_global_status_performance_schema_lost_total",
           labels := [("instrumentation", rest)], vtype := .counter, value := v }]) ∧
    (globalStatusMatch key = none →
      scrapeGlobalRow key val =
        [{ name := "mysql_global_status_" ++ toLowerStr key, labels := [],
           vtype := .untyped, value := v }]) := by
  refine ⟨?_, ?_, ?_, ?_, ?_⟩ <;> intro hk
  · subst hk
    simp [scrapeGlobalRow, hparse, globalStatusMatch_com rest hnl]
  · subst hk
    simp [scrapeGlobalRow, hparse, globalStatusMatch_connection_errors rest hnl]
  · subst hk
    simp [scrapeGlobalRow, hparse, globalStatusMatch_innodb_rows rest hnl]
  · subst hk
    simp [scrapeGlobalRow, hparse, globalStatusMatch_performance_schema rest hnl]
  · simp [scrapeGlobalRow, hparse, hk]

/-- C2 witness: instantiating the amended claim at the already-lower-case
key `com_select`. -/
theorem C2_amended_witness :
    scrapeGlobalRow "com_select" "ON" =
      [{ name := "mysql_global_status_commands_total",
         labels := [("command", "select")], vtype := .counter, value := 1 }] :=
  (C2_amended "com_select" "ON" "select" 1 (by decide) (by decide)).1 (by decide)

/-- C3: the spec claims `parse("mysql-bin.000123") = (123, true)` — the
captured digit run parsed as a float.  The code calls `logRE.Find`, which
returns the whole match `"mysql-bin.000123"` rather than the capture
group, and `strconv.ParseFloat` then fails, so the parser returns
`(0, false)`. -/
theorem C3_log_file_parse :
    parseStatus "mysql-bin.000123" = (0, false) ∧
    parseStatus "mysql-bin.000123" ≠ (123, true) := by
  constructor
  · decide
  · intro hcontra
    have : (parseStatus "mysql-bin.000123").2 = true := by rw [hcontra]
    simp [show (parseStatus "mysql-bin.000123").2 = false from by decide] at this

/-- C4: the spec claims every row-scan error, in any query state, sets the
error flag to 1.  A table-waits row-scan error aborts the poll (here the
enabled user-statistics state never runs, so no metric of the pending
`bob` row appears) but returns with the error flag still 0: the handler at
lines 345-348 has no `e.error.Set(1)`. -/
theorem C4_perf_scan_error_flag :
    scrape { perfTableIOWaits := true, userStat := true } dbPerfScanFailure 1
        { duration := 0, errorFlag := false, totalScrapes := 0 } =
      ({ duration := 1, errorFlag := false, totalScrapes := 1 }, [], .normal) := by
  rfl

/-- C5: if `SHOW SLAVE STATUS` fails to execute after a successful
global-status state, the poll ends normally with the error flag set, the
emitted metrics are exactly those of the global-status state (retained,
not retracted), and nothing from the failed or later queries is
emitted. -/
theorem C5_slave_query_failure (fl : Flags) (db : DB) (elapsed : ℚ)
    (st : ExporterState) (rows : List (Option (String × String)))
    (hconn : db.connOk = true)
    (hglobal : db.globalStatus = .ok rows)
    (hscan : (processGlobalRows rows).2 = true)
    (hslave : db.slaveStatus = .error ()) :
    scrape fl db elapsed st =
      ({ duration := elapsed, errorFlag := true, totalScrapes := st.totalScrapes + 1 },
       (processGlobalRows rows).1, .normal) := by
  simp [scrape, scrapeBody, scrapeFromSlave, hconn, hglobal, hscan, hslave]

/-- C5 witness: a concrete database whose second query fails after two
global-status rows were emitted. -/
theorem C5_witness :
    scrape { perfTableIOWaits := true, userStat := true } dbSlaveQueryFailure 2
        { duration := 0, errorFlag := false, totalScrapes := 7 } =
      ({ duration := 2, errorFlag := true, totalScrapes := 8 },
       (processGlobalRows
         [some ("Com_delete", "ON"), some ("wait_timeout", "garbage")]).1, .normal) :=
  C5_slave_query_failure _ _ _ _ _ rfl rfl (by decide) rfl

/-- C6: the spec claims that after every poll the three self-observation
metrics are emitted with the error gauge equal to 1 on any failure path,
scan errors included.  After a table-waits scan failure the poll did fail
(one row was lost and the pending user-statistics state was skipped), the
three self metrics are emitted and the scrape counter was incremented
once, but the error gauge reads 0. -/
theorem C6_self_metrics_after_scan_error :
    collect { perfTableIOWaits := true, userStat := true } dbPartialThenScanFailure 1
        { duration := 0, errorFlag := false, totalScrapes := 0 } =
      ({ duration := 1, errorFlag := false, totalScrapes := 1 },
       [{ name := "mysql_global_status_slave_running", labels := [],
          vtype := .untyped, value := 1 }]
         ++ scrapeTableWaitsRow
              { objectSchema := "db", objectName := "t", countRead := 1, countWrite := 2,
                countFetch := 3, countInsert := 4, countUpdate := 5, countDelete := 6 }
         ++ [{ name := "mysql_exporter_last_scrape_duration_seconds", labels := [],
               vtype := .gauge, value := 1 },
             { name := "mysql_exporter_scrapes_total", labels := [],
               vtype := .counter, value := 1 },
             { name := "mysql_exporter_last_scrape_error", labels := [],
               vtype := .gauge, value := 0 }], .normal) := by
  rfl

/-- C7: the value parser returns `(1, true)` under rule 1 exactly for
`"Yes"` and `"ON"` and `(0, true)` under rule 2 exactly for `"No"` and
`"OFF"` (case-sensitive: the lower-case spellings fall through and fail),
every other input takes the numeric fall-through branches, unparseable
input yields `ok = false` with no exception, and the global-status caller
emits nothing at all for a cell whose parse failed. -/
theorem C7_parse_contract :
    parseStatus "Yes" = (1, true) ∧ parseStatus "ON" = (1, true) ∧
    parseStatus "No" = (0, true) ∧ parseStatus "OFF" = (0, true) ∧
    parseStatus "yes" = (0, false) ∧ parseStatus "no" = (0, false) ∧
    parseStatus "on" = (0, false) ∧ parseStatus "off" = (0, false) ∧
    parseStatus "garbage" = (0, false) ∧
    (∀ s : String, s ≠ "Yes" → s ≠ "ON" → s ≠ "No" → s ≠ "OFF" →
      parseStatus s = parseStatusNumeric s) ∧
    (∀ key val : String, (parseStatus val).2 = false → scrapeGlobalRow key val = []) := by
  refine ⟨by decide, by decide, by decide, by decide, by decide, by decide, by decide,
    by decide, by decide, ?_, ?_⟩
  · intro s h1 h2 h3 h4
    simp [parseStatus, h1, h2, h3, h4]
  · intro key val h
    simp [scrapeGlobalRow, h]

/-- C7 witness: the unparseable cell `"garbage"` produces no observation
for the `wait_timeout` row. -/
theorem C7_witness : scrapeGlobalRow "wait_timeout" "garbage" = [] :=
  C7_parse_contract.2.2.2.2.2.2.2.2.2.2 "wait_timeout" "garbage" (by decide)

/-- C8: every scanned table-waits row yields exactly six observations, all
Counters on the single identity `table_io_waits_total` with label names
`(schema, name, operation)`, one per operation
read/write/fetch/insert/update/delete, each carrying the corresponding
scanned counter value. -/
theorem C8_table_waits_row (r : TableWaitsRow) :
    (scrapeTableWaitsRow r).length = 6 ∧
    (scrapeTableWaitsRow r).map Metric.vtype = List.replicate 6 .counter ∧
    (scrapeTableWaitsRow r).map Metric.name =
      List.replicate 6 "mysql_perf_schema_table_io_waits_total" ∧
    (scrapeTableWaitsRow r).map Metric.labels =
      ["read", "write", "fetch", "insert", "update", "delete"].map
        (fun op => [("schema", r.objectSchema), ("name", r.objectName), ("operation", op)]) ∧
    (scrapeTableWaitsRow r).map Metric.value =
      [r.countRead, r.countWrite, r.countFetch, r.countInsert, r.countUpdate,
        r.countDelete].map (fun c => (c : ℚ)) := by
  refine ⟨rfl, rfl, rfl, rfl, rfl⟩

/-- C9: with zero slave-status rows nothing is emitted, the error flag is
untouched and the poll proceeds to the table-waits state; with one row the
poll proceeds after emitting the row, where every successfully parsed cell
appears as an untyped, label-less metric named from the lower-cased column
name, and every emitted slave metric is untyped and label-less. -/
theorem C9_slave_status (fl : Flags) (db : DB) (sr : SlaveResult)
    (st : ExporterState) (acc : List Metric)
    (hdb : db.slaveStatus = .ok sr) :
    (sr.hasRow = false → scrapeFromSlave fl db st acc = scrapeFromPerf fl db st acc) ∧
    (∀ cols, sr.hasRow = true → sr.columns = .ok cols → sr.scanOk = true →
      scrapeFromSlave fl db st acc =
        scrapeFromPerf fl db st (acc ++ scrapeSlaveRow cols sr.vals)) ∧
    (∀ cols vals c v, (c, v) ∈ cols.zip vals → (parseStatus v).2 = true →
      ({ name := "mysql_slave_status_" ++ toLowerStr c, labels := [],
         vtype := .untyped, value := (parseStatus v).1 } : Metric) ∈
        scrapeSlaveRow cols vals) ∧
    (∀ cols vals, ∀ m ∈ scrapeSlaveRow cols vals,
      m.vtype = .untyped ∧ m.labels = []) := by
  refine ⟨?_, ?_, ?_, ?_⟩
  · intro h
    simp [scrapeFromSlave, hdb, h]
  · intro cols h1 h2 h3
    simp [scrapeFromSlave, hdb, h1, h2, h3]
  · intro cols vals c v hm hp
    refine List.mem_filterMap.mpr ⟨(c, v), hm, ?_⟩
    simp [hp]
  · intro cols vals m hm
    obtain ⟨p, _, hfp⟩ := List.mem_filterMap.mp hm
    by_cases hp : (parseStatus p.2).2
    · simp [hp] at hfp
      subst hfp
      exact ⟨rfl, rfl⟩
    · simp [hp] at hfp

/-- C9 witness: instantiating the zero-row clause and the one-column
emission clause on a concrete idle server. -/
theorem C9_witness :
    (scrapeFromSlave { perfTableIOWaits := false, userStat := false } dbNoSlaveRow
        { duration := 0, errorFlag := false, totalScrapes := 1 } [] =
      scrapeFromPerf { perfTableIOWaits := false, userStat := false } dbNoSlaveRow
        { duration := 0, errorFlag := false, totalScrapes := 1 } []) ∧
    ({ name := "mysql_slave_status_slave_io_running", labels := [],
       vtype := .untyped, value := 1 } : Metric) ∈
      scrapeSlaveRow ["Slave_IO_Running"] ["Yes"] := by
  have h := C9_slave_status { perfTableIOWaits := false, userStat := false } dbNoSlaveRow
    { hasRow := false, columns := .ok [], scanOk := true, vals := [] }
    { duration := 0, errorFlag := false, totalScrapes := 1 } [] rfl
  exact ⟨h.1 rfl, h.2.2.1 ["Slave_IO_Running"] ["Yes"] "Slave_IO_Running" "Yes"
    (by decide) (by decide)⟩

/-- C10: the user-statistics state binds result column 0 before scanning,
so with at least one column the state always returns normally, while a
zero-column result set panics (index out of range on
`userStatScanArgs[0]`) without ever reaching an error-flag assignment: the
state comes back unchanged with the panic outcome. -/
theorem C10_user_stat_zero_columns (fl : Flags) (db : DB) (st : ExporterState)
    (acc : List Metric) (us : UserStatResult)
    (hfl : fl.userStat = true) (hdb : db.userStats = .ok us) :
    (us.columns = .ok [] →
      scrapeFromUserStat fl db st acc = (st, acc, .indexOutOfRange)) ∧
    (∀ cols, us.columns = .ok cols → cols ≠ [] →
      (scrapeFromUserStat fl db st acc).2.2 = .normal) := by
  constructor
  · intro h
    simp [scrapeFromUserStat, hfl, hdb, h]
  · intro cols h hne
    simp [scrapeFromUserStat, hfl, hdb, h, hne, processUserStatRows_outcome]

/-- C10 witness: the zero-column clause on a concrete database; the flag
in the entering state (here 0 after the reset) is returned untouched. -/
theorem C10_witness :
    scrapeFromUserStat { perfTableIOWaits := false, userStat := true } dbUserStatNoColumns
        { duration := 0, errorFlag := false, totalScrapes := 1 } [] =
      ({ duration := 0, errorFlag := false, totalScrapes := 1 }, [], .indexOutOfRange) :=
  (C10_user_stat_zero_columns { perfTableIOWaits := false, userStat := true }
    dbUserStatNoColumns { duration := 0, errorFlag := false, totalScrapes := 1 } []
    { columns := .ok [], rows := [] } rfl rfl).1 rfl

end MysqldExporter
